import Mathlib

/-!
Verification of the MenuGenChina progressive menu-extraction service.

This file gives a shallow embedding of the repository's request handlers and
provider-selection logic, translated from the Python sources:

* `api/menu.py`   — batched menu extraction handler (Gemini backend);
* `api/ocr.py`    — single-shot quick extraction handler (Gemini backend);
* `services/ocr/app/main.py` — FastAPI OCR / dish-details endpoints;
* `services/ocr/app/ocr.py`  — OCR provider construction (`build_provider`);
* `ocr_server_google.py`     — standalone Vision OCR server with result cache.

JSON values are modelled by an inductive `Json` type (numbers at integer
precision: no claim below involves non-integer numerals).  Python dicts are
modelled as association lists looked up by first match, which matches the
observable behaviour of `dict.get` on the dicts the handlers build.  Network
calls are modelled by environment records carrying the provider's parsed
response; exceptions are modelled by `Except` with a `PyErr` error type that
distinguishes the exception classes the handlers catch.
-/

/-- JSON values (numbers at integer precision). -/
inductive Json where
  | null : Json
  | bool : Bool → Json
  | num : Int → Json
  | str : String → Json
  | arr : List Json → Json
  | obj : List (String × Json) → Json

/-- Dictionary lookup: first binding of the key, `d.get(k)` on a Python dict.
The handlers only build dicts with pairwise-distinct literal keys. -/
def dictGet (d : List (String × Json)) (k : String) : Option Json :=
  (d.find? (fun p => p.1 == k)).map (fun p => p.2)

/-- Python `d.get(k, default)`. -/
def pyGet (d : List (String × Json)) (k : String) (dflt : Json) : Json :=
  (dictGet d k).getD dflt

/-- Python truthiness of a JSON value (`bool(x)`). -/
def pyTruthy : Json → Bool
  | Json.null => false
  | Json.bool b => b
  | Json.num n => n != 0
  | Json.str s => s != ""
  | Json.arr l => !l.isEmpty
  | Json.obj l => !l.isEmpty

/-- Python `len(x)` on a JSON value: defined for sized values (sequences,
strings, mappings), `none` models the `TypeError` raised otherwise. -/
def pyLen : Json → Option Nat
  | Json.arr xs => some xs.length
  | Json.str s => some s.length
  | Json.obj kvs => some kvs.length
  | _ => none

/-- An integer-valued JSON number.  (Python `bool` also supports arithmetic;
no claim exercises that corner, so only `num` is accepted here.) -/
def jsonInt : Json → Option Int
  | Json.num n => some n
  | _ => none

/-! ### Python string helpers (modelled on `List Char`) -/

/-- Characters removed by Python `str.strip()` (ASCII whitespace). -/
def pyIsSpace (c : Char) : Bool :=
  c == ' ' || c == '\t' || c == '\n' || c == '\r' || c == '\x0b' || c == '\x0c'

/-- Python `str.strip()`: drop leading and trailing whitespace. -/
def pyStrip (cs : List Char) : List Char :=
  ((cs.dropWhile pyIsSpace).reverse.dropWhile pyIsSpace).reverse

/-- `str.strip()` on a `String`. -/
def pyStripS (s : String) : String :=
  (pyStrip s.data).asString

/-- Does the text start with the fence marker ` ``` `
(Python `result_text.startswith('```')`)? -/
def fenceStarts : List Char → Bool
  | a :: b :: c :: _ => a == '`' && b == '`' && c == '`'
  | _ => false

/-- First occurrence split: Python `s.split('\n', 1)` when a newline exists
returns the part before and after the first `'\n'`; `none` when there is no
newline (so that `split('\n', 1)[1]` raises `IndexError`). -/
def splitFirstNl : List Char → Option (List Char × List Char)
  | [] => none
  | c :: cs =>
    if c == '\n' then some ([], cs)
    else match splitFirstNl cs with
      | some (l, r) => some (c :: l, r)
      | none => none

/-- Is `pat` an initial segment of `cs`? -/
def startsWithSeq : List Char → List Char → Bool
  | [], _ => true
  | _ :: _, [] => false
  | p :: ps, c :: cs => p == c && startsWithSeq ps cs

/-- `some t` when `pat` occurs in `cs` and `t` is the part of `cs` before the
last occurrence of `pat`; `none` when `pat` does not occur. -/
def lastOccSplit (pat : List Char) : List Char → Option (List Char)
  | [] => none
  | c :: cs =>
    match lastOccSplit pat cs with
    | some tail => some (c :: tail)
    | none => if startsWithSeq pat (c :: cs) then some [] else none

/-- Part of `cs` before the last occurrence of `pat`, or `cs` itself when
`pat` does not occur: Python `cs.rsplit(pat, 1)[0]`. -/
def beforeLastOcc (pat cs : List Char) : List Char :=
  (lastOccSplit pat cs).getD cs

/-- The newline-fence pattern `"\n```"` used by
`result_text.rsplit('\n```', 1)[0]`. -/
def nlFence : List Char := '\n' :: '`' :: '`' :: '`' :: []

/-- The markdown-fence removal step shared by every handler
(`api/menu.py` lines 237–241 and its clones):

    if result_text.startswith('```'):
        result_text = result_text.split('\n', 1)[1]
        result_text = result_text.rsplit('\n```', 1)[0]
        result_text = result_text.strip()

`none` models the `IndexError` raised by `split('\n', 1)[1]` when the text
starts with a fence but contains no newline. -/
def stripFence (cs : List Char) : Option (List Char) :=
  if fenceStarts cs then
    match splitFirstNl cs with
    | none => none
    | some (_, rest) => some (pyStrip (beforeLastOcc nlFence rest))
  else some cs

/-- `stripFence` on `String`s. -/
def stripFenceS (s : String) : Option String :=
  (stripFence s.data).map List.asString

example : stripFenceS "```json\nabc\n```" = some "abc" := by decide
example : stripFenceS "no fence" = some "no fence" := by decide
example : stripFenceS "```json\n{ }\n```" = some "{ }" := by decide

/-! ### A model of CPython `json.loads`

The handlers call `json.loads` on the provider's (fence-stripped) text and
catch `json.JSONDecodeError`.  The scanner below follows CPython's
`json/decoder.py` (pure-Python scanner): the same character walk, the same
error messages and the same error positions on the paths the claims
exercise.  Numeric literals are kept at integer precision (a fraction or
exponent is consumed but ignored numerically); no claim involves non-integer
numbers.  The scanner is fuelled; the fuel passed by `pyJsonLoads` exceeds
the recursion depth reachable on any input. -/

/-- A `json.JSONDecodeError`: message and character position in the document. -/
structure PyJsonError where
  msg : String
  pos : Nat
deriving DecidableEq, Repr

/-- Character at index `i`, Python `s[i:i+1]` (`none` for out of range). -/
def charAt (cs : List Char) (i : Nat) : Option Char :=
  cs.get? i

/-- JSON whitespace (CPython `WHITESPACE_STR`). -/
def jsonWs (c : Char) : Bool :=
  c == ' ' || c == '\t' || c == '\n' || c == '\r'

/-- Index after skipping JSON whitespace starting at `i`. -/
def skipWs (cs : List Char) : Nat → Nat → Nat
  | 0, i => i
  | fuel + 1, i =>
    match charAt cs i with
    | some c => if jsonWs c then skipWs cs fuel (i + 1) else i
    | none => i

/-- Does `word` occur at index `i` (Python `s[i:i+len] == word`)? -/
def litAt (cs : List Char) (i : Nat) (word : List Char) : Bool :=
  startsWithSeq word (cs.drop i)

/-- Value of a hex digit. -/
def hexVal (c : Char) : Option Nat :=
  if '0' ≤ c ∧ c ≤ '9' then some (c.toNat - '0'.toNat)
  else if 'a' ≤ c ∧ c ≤ 'f' then some (c.toNat - 'a'.toNat + 10)
  else if 'A' ≤ c ∧ c ≤ 'F' then some (c.toNat - 'A'.toNat + 10)
  else none

/-- Four hex digits at `i`. -/
def hex4 (cs : List Char) (i : Nat) : Option Nat := do
  let a ← charAt cs i >>= hexVal
  let b ← charAt cs (i + 1) >>= hexVal
  let c ← charAt cs (i + 2) >>= hexVal
  let d ← charAt cs (i + 3) >>= hexVal
  pure (((a * 16 + b) * 16 + c) * 16 + d)

/-- CPython `py_scanstring` (strict mode): scan the body of a string literal
from index `i` (just past the opening quote); `begin` is the index of the
opening quote, used in the "Unterminated string" error position. -/
def scanString (cs : List Char) : Nat → Nat → Nat → List Char →
    Except PyJsonError (String × Nat)
  | 0, i, _, _ => Except.error ⟨"scanner fuel exhausted", i⟩
  | fuel + 1, i, begin, acc =>
    match charAt cs i with
    | none => Except.error ⟨"Unterminated string starting at", begin⟩
    | some c =>
      if c = '"' then Except.ok (acc.asString, i + 1)
      else if c = '\\' then
        match charAt cs (i + 1) with
        | none => Except.error ⟨"Unterminated string starting at", begin⟩
        | some e =>
          if e = 'u' then
            match hex4 cs (i + 2) with
            | some code => scanString cs fuel (i + 6) begin (acc ++ [Char.ofNat code])
            | none => Except.error ⟨"Invalid \\uXXXX escape", i + 1⟩
          else if e = '"' then scanString cs fuel (i + 2) begin (acc ++ ['"'])
          else if e = '\\' then scanString cs fuel (i + 2) begin (acc ++ ['\\'])
          else if e = '/' then scanString cs fuel (i + 2) begin (acc ++ ['/'])
          else if e = 'b' then scanString cs fuel (i + 2) begin (acc ++ ['\x08'])
          else if e = 'f' then scanString cs fuel (i + 2) begin (acc ++ ['\x0c'])
          else if e = 'n' then scanString cs fuel (i + 2) begin (acc ++ ['\n'])
          else if e = 'r' then scanString cs fuel (i + 2) begin (acc ++ ['\r'])
          else if e = 't' then scanString cs fuel (i + 2) begin (acc ++ ['\t'])
          else
            -- CPython renders the escape character into the message; the
            -- message text is not inspected by any claim
            Except.error ⟨"Invalid \\escape", i⟩
      else if c.toNat < 0x20 then
        -- strict mode; message elides CPython's repr of the character
        Except.error ⟨"Invalid control character at", i⟩
      else scanString cs fuel (i + 1) begin (acc ++ [c])

/-- Longest run of decimal digits starting at `i`: (digits, next index). -/
def digitRun (cs : List Char) : Nat → Nat → List Char × Nat
  | 0, i => ([], i)
  | fuel + 1, i =>
    match charAt cs i with
    | some c =>
      if '0' ≤ c ∧ c ≤ '9' then
        let (ds, j) := digitRun cs fuel (i + 1)
        (c :: ds, j)
      else ([], i)
    | none => ([], i)

/-- Decimal value of a digit list. -/
def digitsVal (ds : List Char) : Nat :=
  ds.foldl (fun acc c => acc * 10 + (c.toNat - '0'.toNat)) 0

/-- CPython `NUMBER_RE` match at index `i`:
`(-?(0|[1-9]\d*))(\.\d+)?([eE][-+]?\d+)?`.  Returns the integer part's value
(fraction and exponent are consumed but ignored numerically) and the index
after the match; `none` when the regex does not match at `i`. -/
def scanNumber (cs : List Char) (i : Nat) : Option (Int × Nat) :=
  let (neg, i1) := if charAt cs i = some '-' then (true, i + 1) else (false, i)
  match charAt cs i1 with
  | none => none
  | some c =>
    if c = '0' then
      some (mkNum neg 0 (afterIntPart (i1 + 1)))
    else if '1' ≤ c ∧ c ≤ '9' then
      let (ds, i2) := digitRun cs (cs.length + 1) i1
      some (mkNum neg (digitsVal ds) (afterIntPart i2))
    else none
where
  mkNum (neg : Bool) (v : Nat) (j : Nat) : Int × Nat :=
    ((if neg then -(v : Int) else (v : Int)), j)
  afterIntPart (i2 : Nat) : Nat :=
    -- optional fraction
    let i3 :=
      if charAt cs i2 = some '.' then
        match digitRun cs (cs.length + 1) (i2 + 1) with
        | ([], _) => i2
        | (_ :: _, j) => j
      else i2
    -- optional exponent
    if charAt cs i3 = some 'e' ∨ charAt cs i3 = some 'E' then
      let i4 := if charAt cs (i3 + 1) = some '+' ∨ charAt cs (i3 + 1) = some '-'
                then i3 + 2 else i3 + 1
      match digitRun cs (cs.length + 1) i4 with
      | ([], _) => i3
      | (_ :: _, j) => j
    else i3

/-- Scanner mode: which CPython scanner routine is running.  Folding the
mutually recursive routines into one fuelled function keeps the recursion
structural, so that concrete runs reduce definitionally. -/
inductive JMode where
  | val : JMode
  | objStart : JMode
  | objLoop : List (String × Json) → JMode
  | arrStart : JMode
  | arrLoop : List Json → JMode

/-- The CPython scanner (`_scan_once` / `JSONObject` / `JSONArray`),
dispatched on `JMode`:

* `val`: scan one JSON value at index `i` (no leading whitespace skip);
  `NaN`/`Infinity` constants are not modelled, no claim involves them;
* `objStart`: just past a `'{'`;
* `objLoop acc`: just past the opening quote of the next object key;
* `arrStart`: just past a `'['`;
* `arrLoop acc`: at the start of the next array element. -/
def jScan (cs : List Char) : Nat → JMode → Nat → Except PyJsonError (Json × Nat)
  | 0, _, i => Except.error ⟨"scanner fuel exhausted", i⟩
  | fuel + 1, JMode.val, i =>
    match charAt cs i with
    | none => Except.error ⟨"Expecting value", i⟩
    | some c =>
      if c = '"' then
        match scanString cs (cs.length + 1) (i + 1) i [] with
        | Except.ok (s, j) => Except.ok (Json.str s, j)
        | Except.error e => Except.error e
      else if c = '{' then jScan cs fuel JMode.objStart (i + 1)
      else if c = '[' then jScan cs fuel JMode.arrStart (i + 1)
      else if litAt cs i "null".data then Except.ok (Json.null, i + 4)
      else if litAt cs i "true".data then Except.ok (Json.bool true, i + 4)
      else if litAt cs i "false".data then Except.ok (Json.bool false, i + 5)
      else
        match scanNumber cs i with
        | some (n, j) => Except.ok (Json.num n, j)
        | none => Except.error ⟨"Expecting value", i⟩
  | fuel + 1, JMode.objStart, i =>
    if charAt cs i = some '"' then jScan cs fuel (JMode.objLoop []) (i + 1)
    else
      let i1 := match charAt cs i with
        | some c => if jsonWs c then skipWs cs (cs.length + 1) i else i
        | none => i
      match charAt cs i1 with
      | some '}' => Except.ok (Json.obj [], i1 + 1)
      | some '"' => jScan cs fuel (JMode.objLoop []) (i1 + 1)
      | _ => Except.error ⟨"Expecting property name enclosed in double quotes", i1⟩
  | fuel + 1, JMode.objLoop acc, i =>
    match scanString cs (cs.length + 1) i (i - 1) [] with
    | Except.error e => Except.error e
    | Except.ok (key, i2) =>
      let i3 := if charAt cs i2 = some ':' then i2 else skipWs cs (cs.length + 1) i2
      if charAt cs i3 ≠ some ':' then Except.error ⟨"Expecting ':' delimiter", i3⟩
      else
        let i5 := skipWs cs (cs.length + 1) (i3 + 1)
        match jScan cs fuel JMode.val i5 with
        | Except.error e => Except.error e
        | Except.ok (v, i6) =>
          let acc2 := acc ++ [(key, v)]
          match charAt cs i6 with
          | none => Except.error ⟨"Expecting ',' delimiter", i6⟩
          | some c0 =>
            let i7 := if jsonWs c0 then skipWs cs (cs.length + 1) (i6 + 1) else i6
            match charAt cs i7 with
            | none => Except.error ⟨"Expecting ',' delimiter", i7⟩
            | some c =>
              if c = '}' then Except.ok (Json.obj acc2, i7 + 1)
              else if c ≠ ',' then Except.error ⟨"Expecting ',' delimiter", i7⟩
              else
                let i8 := skipWs cs (cs.length + 1) (i7 + 1)
                if charAt cs i8 = some '"' then jScan cs fuel (JMode.objLoop acc2) (i8 + 1)
                else Except.error
                  ⟨"Expecting property name enclosed in double quotes", i8⟩
  | fuel + 1, JMode.arrStart, i =>
    let i1 := match charAt cs i with
      | some c => if jsonWs c then skipWs cs (cs.length + 1) (i + 1) else i
      | none => i
    if charAt cs i1 = some ']' then Except.ok (Json.arr [], i1 + 1)
    else jScan cs fuel (JMode.arrLoop []) i1
  | fuel + 1, JMode.arrLoop acc, i =>
    match jScan cs fuel JMode.val i with
    | Except.error e => Except.error e
    | Except.ok (v, i2) =>
      let acc2 := acc ++ [v]
      let i3 := match charAt cs i2 with
        | some c => if jsonWs c then skipWs cs (cs.length + 1) (i2 + 1) else i2
        | none => i2
      match charAt cs i3 with
      | none => Except.error ⟨"Expecting ',' delimiter", i3⟩
      | some c =>
        if c = ']' then Except.ok (Json.arr acc2, i3 + 1)
        else if c ≠ ',' then Except.error ⟨"Expecting ',' delimiter", i3⟩
        else jScan cs fuel (JMode.arrLoop acc2) (skipWs cs (cs.length + 1) (i3 + 1))

/-- CPython `json.loads`: skip leading whitespace, scan one value, skip
trailing whitespace, demand end of input. -/
def pyJsonLoads (s : String) : Except PyJsonError Json :=
  let cs := s.data
  let i0 := skipWs cs (cs.length + 1) 0
  match jScan cs (cs.length + 8) JMode.val i0 with
  | Except.error e => Except.error e
  | Except.ok (v, e) =>
    let e2 := skipWs cs (cs.length + 1) e
    if e2 = cs.length then Except.ok v
    else Except.error ⟨"Extra data", e2⟩

/-- Newlines in the first `pos` characters. -/
def countNlBefore (cs : List Char) (pos : Nat) : Nat :=
  ((cs.take pos).filter (fun c => c == '\n')).length

/-- Highest index `j < pos` with `cs[j] = '\n'` (Python `doc.rfind('\n', 0, pos)`,
`none` for `-1`). -/
def rfindNlBefore (cs : List Char) (pos : Nat) : Option Nat :=
  (List.range pos).reverse.find? (fun j => charAt cs j == some '\n')

/-- `str(e)` for a `json.JSONDecodeError` raised on document `doc`:
`"{msg}: line {lineno} column {colno} (char {pos})"`. -/
def pyJsonErrorStr (doc : String) (e : PyJsonError) : String :=
  let lineno := countNlBefore doc.data e.pos + 1
  let colno := match rfindNlBefore doc.data e.pos with
    | some j => e.pos - j
    | none => e.pos + 1
  e.msg ++ ": line " ++ toString lineno ++ " column " ++ toString colno ++
    " (char " ++ toString e.pos ++ ")"

example : pyJsonLoads "[]" = Except.ok (Json.arr []) := rfl
example : pyJsonLoads "\x7b\"menu_items\": []\x7d" =
    Except.ok (Json.obj [("menu_items", Json.arr [])]) := rfl
example : pyJsonLoads "\x7bx\x7d" =
    Except.error ⟨"Expecting property name enclosed in double quotes", 1⟩ := rfl
example : pyJsonLoads "\x7bxy\x7d" =
    Except.error ⟨"Expecting property name enclosed in double quotes", 1⟩ := rfl
example : pyJsonLoads " [1, true, null, \"a\"] " =
    Except.ok (Json.arr [Json.num 1, Json.bool true, Json.null, Json.str "a"]) := rfl
example : pyJsonErrorStr "\x7bx\x7d"
    ⟨"Expecting property name enclosed in double quotes", 1⟩ =
    "Expecting property name enclosed in double quotes: line 1 column 2 (char 1)" := rfl

/-! ### The `api/menu.py` batch-extraction handler -/

/-- Exceptions distinguished by the handlers' `except` clauses:

* `jsonErr doc e`: a `json.JSONDecodeError` `e` raised while parsing `doc`
  (the document is carried because `str(e)` renders line/column from it);
* `httpExc code detail`: a FastAPI/starlette `HTTPException`
  (`str` renders as `"{code}: {detail}"`);
* `generic msg`: any other exception, rendered by its message. -/
inductive PyErr where
  | jsonErr : String → PyJsonError → PyErr
  | httpExc : Nat → String → PyErr
  | generic : String → PyErr

/-- Data-URL prefix removal (`api/menu.py` lines 70–71 and its clones):

    if ',' in image_data:
        image_data = image_data.split(',')[1]

(Python `split(',')[1]` is the second comma-separated segment: the part
between the first comma and the following comma or end.) -/
def dataStrip (s : String) : String :=
  if s.data.any (fun c => c == ',') then
    (((s.data.dropWhile (fun c => c != ',')).drop 1).takeWhile
      (fun c => c != ',')).asString
  else s

/-- `dishes_per_batch` (`api/menu.py` line 62): fixed policy constant. -/
def dishesPerBatch : Int := 2

/-- `start_dish = (batch_number - 1) * dishes_per_batch + 1`
(`api/menu.py` line 63). -/
def startDish (batchNumber : Int) : Int :=
  (batchNumber - 1) * dishesPerBatch + 1

/-- `end_dish = start_dish + dishes_per_batch - 1` (`api/menu.py` line 64). -/
def endDish (batchNumber : Int) : Int :=
  startDish batchNumber + dishesPerBatch - 1

/-- Extraction of the model text from the parsed Gemini envelope
(`api/menu.py` lines 226–234, identically in `api/ocr.py` lines 83–90):

    if 'candidates' in gemini_result and len(gemini_result['candidates']) > 0:
        candidate = gemini_result['candidates'][0]
        if 'content' in candidate and 'parts' in candidate['content']:
            result_text = candidate['content']['parts'][0]['text'].strip()
        else:
            raise Exception("Unexpected Gemini response format")
    else:
        raise Exception("No response from Gemini")

Shapes on which the Python expression itself would raise (`TypeError`,
`KeyError`, `IndexError`, `AttributeError`) are routed to `generic` errors
with the exception's name; those corners are not exercised by any claim. -/
def geminiExtract (g : List (String × Json)) : Except PyErr String :=
  match dictGet g "candidates" with
  | some (Json.arr (c :: _)) =>
    match c with
    | Json.obj cd =>
      match dictGet cd "content" with
      | some (Json.obj content) =>
        match dictGet content "parts" with
        | some (Json.arr (p :: _)) =>
          match p with
          | Json.obj pd =>
            match dictGet pd "text" with
            | some (Json.str t) => Except.ok (pyStripS t)
            | some _ => Except.error (PyErr.generic "AttributeError")
            | none => Except.error (PyErr.generic "KeyError")
          | _ => Except.error (PyErr.generic "TypeError")
        | some (Json.arr []) => Except.error (PyErr.generic "IndexError")
        | some _ => Except.error (PyErr.generic "TypeError")
        | none => Except.error (PyErr.generic "Unexpected Gemini response format")
      | some _ => Except.error (PyErr.generic "TypeError")
      | none => Except.error (PyErr.generic "Unexpected Gemini response format")
    | _ => Except.error (PyErr.generic "TypeError")
  | some (Json.arr []) => Except.error (PyErr.generic "No response from Gemini")
  | some _ => Except.error (PyErr.generic "TypeError")
  | none => Except.error (PyErr.generic "No response from Gemini")

/-- The count-only response body (`api/menu.py` lines 253–258):
`{'total_dishes': result_json.get('total_dishes', 0)}`. -/
def countOnlyResponse (d : List (String × Json)) : List (String × Json) :=
  [("total_dishes", pyGet d "total_dishes" (Json.num 0))]

/-- The regular batch response body (`api/menu.py` lines 260–270), built from
the parsed provider payload `d` and the request's `batch_number`:

    response_data = {
        'original_text': result_json.get('original_text', ''),
        'translated_text': result_json.get('translated_text', ''),
        'menu_items': result_json.get('menu_items', []),
        'has_more': result_json.get('has_more', False),
        'total_dishes_estimate':
            result_json.get('total_dishes_estimate',
                            len(result_json.get('menu_items', []))),
        'batch_number': batch_number,
        'detected_lang': 'zh'
    }

`none` models the `TypeError` raised by `len(...)` (line 260) when the
provider supplied a `menu_items` value without a length. -/
def menuBatchResponse (d : List (String × Json)) (bn : Int) :
    Option (List (String × Json)) :=
  match pyLen (pyGet d "menu_items" (Json.arr [])) with
  | none => none
  | some n =>
    some [("original_text", pyGet d "original_text" (Json.str "")),
          ("translated_text", pyGet d "translated_text" (Json.str "")),
          ("menu_items", pyGet d "menu_items" (Json.arr [])),
          ("has_more", pyGet d "has_more" (Json.bool false)),
          ("total_dishes_estimate",
            pyGet d "total_dishes_estimate" (Json.num (Int.ofNat n))),
          ("batch_number", Json.num bn),
          ("detected_lang", Json.str "zh")]

/-- Environment of one `api/menu.py` request: the effects of the external
collaborators.

* `apiKey`: `os.environ.get('GEMINI_API_KEY')`;
* `imageDecodeOk`: whether `base64.b64decode(image_data)` succeeds (its
  failure raises `binascii.Error`, caught by the generic `except`);
* `geminiResult`: the parsed body `response.json()` of the Gemini call, or
  the message of the exception raised by the request block
  (lines 196–219: non-200 status, timeout, connection failure). -/
structure MenuEnv where
  apiKey : Option String
  imageDecodeOk : Bool
  geminiResult : Except String (List (String × Json))

/-- Provider call, envelope extraction, fence stripping and JSON parsing
(`api/menu.py` lines 196–244), parameterised by the `json.loads`
implementation. -/
def menuParsed (loads : String → Except PyJsonError Json) (env : MenuEnv) :
    Except PyErr Json :=
  match env.geminiResult with
  | Except.error msg => Except.error (PyErr.generic msg)
  | Except.ok g =>
    match geminiExtract g with
    | Except.error e => Except.error e
    | Except.ok t =>
      match stripFenceS t with
      | none => Except.error (PyErr.generic "list index out of range")
      | some t2 =>
        match loads t2 with
        | Except.error e => Except.error (PyErr.jsonErr t2 e)
        | Except.ok j => Except.ok j

/-- The body of `handler.do_POST` in `api/menu.py` (lines 31–276) up to the
successful response body, with exceptions as `Except.error`.  The missing
API key case (lines 43–50) sends the same 500 body directly instead of
raising; it is folded into the error channel because the observable response
is identical. -/
def menuCore (loads : String → Except PyJsonError Json)
    (payload : List (String × Json)) (env : MenuEnv) :
    Except PyErr (List (String × Json)) :=
  match env.apiKey with
  | none => Except.error (PyErr.generic "GEMINI_API_KEY not configured")
  | some _ =>
    let countOnly := pyTruthy (pyGet payload "count_only" (Json.bool false))
    -- `batch_number = payload.get('batch_number', 1)` and the window
    -- arithmetic of lines 61–64 run only in the regular mode; a non-numeric
    -- value raises `TypeError` in `(batch_number - 1) * dishes_per_batch`
    let bnRes : Except PyErr Int :=
      if countOnly then Except.ok 1
      else
        match jsonInt (pyGet payload "batch_number" (Json.num 1)) with
        | some bn => Except.ok bn
        | none => Except.error (PyErr.generic "TypeError")
    match bnRes with
    | Except.error e => Except.error e
    | Except.ok bn =>
      if env.imageDecodeOk then
        match menuParsed loads env with
        | Except.error e => Except.error e
        | Except.ok j =>
          match j with
          | Json.obj d =>
            if countOnly then Except.ok (countOnlyResponse d)
            else
              match menuBatchResponse d bn with
              | some r => Except.ok r
              | none => Except.error (PyErr.generic "TypeError")
          | _ =>
            -- `result_json.get` on a non-dict raises `AttributeError`
            Except.error (PyErr.generic "AttributeError")
      else Except.error (PyErr.generic "Invalid base64-encoded string")

/-- `handler.do_POST` of `api/menu.py`: HTTP status and JSON body, the
`except` clauses of lines 278–292 rendering errors:

    except json.JSONDecodeError as e:   # 500, 'JSON parse error: ' + str(e)
    except Exception as e:              # 500, str(e)
-/
def menuDoPost (loads : String → Except PyJsonError Json)
    (payload : List (String × Json)) (env : MenuEnv) :
    Nat × List (String × Json) :=
  match menuCore loads payload env with
  | Except.ok body => (200, body)
  | Except.error (PyErr.jsonErr doc e) =>
    (500, [("error", Json.str ("JSON parse error: " ++ pyJsonErrorStr doc e))])
  | Except.error (PyErr.httpExc code detail) =>
    (500, [("error", Json.str (toString code ++ ": " ++ detail))])
  | Except.error (PyErr.generic msg) =>
    (500, [("error", Json.str msg)])

/-! ### The `api/ocr.py` single-shot extraction handler

`api/ocr.py` is a near-duplicate of `api/menu.py` without the batching and
count-only logic: same API-key check, same image handling, same Gemini
envelope extraction (lines 83–90), same fence stripping (lines 93–96) and
the same pair of `except` clauses (lines 115–127), so the environment and
the provider pipeline model are shared. -/

/-- The success response body of `api/ocr.py` (lines 106–111). -/
def apiOcrResponse (d : List (String × Json)) : List (String × Json) :=
  [("original_text", pyGet d "original_text" (Json.str "")),
   ("translated_text", pyGet d "translated_text" (Json.str "")),
   ("menu_items", pyGet d "menu_items" (Json.arr [])),
   ("detected_lang", Json.str "zh")]

/-- The body of `handler.do_POST` in `api/ocr.py` up to the successful
response body. -/
def apiOcrCore (loads : String → Except PyJsonError Json)
    (env : MenuEnv) : Except PyErr (List (String × Json)) :=
  match env.apiKey with
  | none => Except.error (PyErr.generic "GEMINI_API_KEY not configured")
  | some _ =>
    if env.imageDecodeOk then
      match menuParsed loads env with
      | Except.error e => Except.error e
      | Except.ok (Json.obj d) => Except.ok (apiOcrResponse d)
      | Except.ok _ => Except.error (PyErr.generic "AttributeError")
    else Except.error (PyErr.generic "Invalid base64-encoded string")

/-- `handler.do_POST` of `api/ocr.py`: status and body (`except` clauses at
lines 115–127, identical to `api/menu.py`). -/
def apiOcrDoPost (loads : String → Except PyJsonError Json)
    (env : MenuEnv) : Nat × List (String × Json) :=
  match apiOcrCore loads env with
  | Except.ok body => (200, body)
  | Except.error (PyErr.jsonErr doc e) =>
    (500, [("error", Json.str ("JSON parse error: " ++ pyJsonErrorStr doc e))])
  | Except.error (PyErr.httpExc code detail) =>
    (500, [("error", Json.str (toString code ++ ": " ++ detail))])
  | Except.error (PyErr.generic msg) =>
    (500, [("error", Json.str msg)])

/-! ### The FastAPI service `services/ocr/app/main.py` -/

/-- An `OcrRequest` (`main.py` lines 23–26): all fields optional;
`target_lang` defaults to `"en"`. -/
structure FastReq where
  image : Option String
  image_url : Option String
  target_lang : Option String

/-- Environment of one FastAPI request. `downloadResult` is the body of
`requests.get(image_url)` (or the raised exception's message, which covers
`raise_for_status`); the other fields are as in `MenuEnv`. -/
structure FastEnv where
  apiKey : Option String
  downloadResult : Except String String
  imageDecodeOk : Bool
  geminiResult : Except String (List (String × Json))

/-- Envelope extraction in `main.py` (lines 159–166): the same walk as
`geminiExtract`, but the two failure messages are raised as
`HTTPException(500, ...)` rather than plain `Exception`. -/
def geminiExtractF (g : List (String × Json)) : Except PyErr String :=
  match dictGet g "candidates" with
  | some (Json.arr (c :: _)) =>
    match c with
    | Json.obj cd =>
      match dictGet cd "content" with
      | some (Json.obj content) =>
        match dictGet content "parts" with
        | some (Json.arr (p :: _)) =>
          match p with
          | Json.obj pd =>
            match dictGet pd "text" with
            | some (Json.str t) => Except.ok (pyStripS t)
            | some _ => Except.error (PyErr.generic "AttributeError")
            | none => Except.error (PyErr.generic "KeyError")
          | _ => Except.error (PyErr.generic "TypeError")
        | some (Json.arr []) => Except.error (PyErr.generic "IndexError")
        | some _ => Except.error (PyErr.generic "TypeError")
        | none =>
          Except.error (PyErr.httpExc 500 "Unexpected Gemini response format")
      | some _ => Except.error (PyErr.generic "TypeError")
      | none =>
        Except.error (PyErr.httpExc 500 "Unexpected Gemini response format")
    | _ => Except.error (PyErr.generic "TypeError")
  | some (Json.arr []) => Except.error (PyErr.httpExc 500 "No response from Gemini")
  | some _ => Except.error (PyErr.generic "TypeError")
  | none => Except.error (PyErr.httpExc 500 "No response from Gemini")

/-- A validated pydantic `MenuItem` (`main.py` lines 28–39). -/
structure MainMenuItem where
  chinese : String
  pinyin : Option String
  english : String
  price : Option String
  cultural_details : Option String
  ingredients : Option (List String)
  spiciness_level : Option String
  dietary_info : Option (List String)
  regional_origin : Option String
  recommended_pairings : Option (List String)
  nutritional_info : Option String
deriving DecidableEq, Repr

/-- pydantic coercion to `str`: strings pass, numbers are rendered
(pydantic v1 `str` coercion); anything else fails validation. -/
def coerceStr : Json → Except PyErr String
  | Json.str s => Except.ok s
  | Json.num n => Except.ok (toString n)
  | _ => Except.error (PyErr.generic "ValidationError")

/-- pydantic coercion to `Optional[str]` (absent key handled by caller). -/
def coerceOptStr : Option Json → Except PyErr (Option String)
  | none => Except.ok none
  | some Json.null => Except.ok none
  | some j =>
    match coerceStr j with
    | Except.ok s => Except.ok (some s)
    | Except.error e => Except.error e

/-- pydantic coercion to `Optional[List[str]]`. -/
def coerceOptStrList : Option Json → Except PyErr (Option (List String))
  | none => Except.ok none
  | some Json.null => Except.ok none
  | some (Json.arr xs) =>
    match xs.mapM coerceStr with
    | Except.ok ss => Except.ok (some ss)
    | Except.error e => Except.error e
  | some _ => Except.error (PyErr.generic "ValidationError")

/-- `MenuItem(**item)` (`main.py` line 179): the item must be a mapping with
required `chinese` and `english` strings; the remaining fields are optional.
Extra keys are ignored (pydantic default). -/
def mkMenuItem : Json → Except PyErr MainMenuItem
  | Json.obj d => do
    let chinese ← match dictGet d "chinese" with
      | some j => coerceStr j
      | none => Except.error (PyErr.generic "ValidationError")
    let english ← match dictGet d "english" with
      | some j => coerceStr j
      | none => Except.error (PyErr.generic "ValidationError")
    let pinyin ← coerceOptStr (dictGet d "pinyin")
    let price ← coerceOptStr (dictGet d "price")
    let cultural ← coerceOptStr (dictGet d "cultural_details")
    let ingredients ← coerceOptStrList (dictGet d "ingredients")
    let spiciness ← coerceOptStr (dictGet d "spiciness_level")
    let dietary ← coerceOptStrList (dictGet d "dietary_info")
    let regional ← coerceOptStr (dictGet d "regional_origin")
    let pairings ← coerceOptStrList (dictGet d "recommended_pairings")
    let nutritional ← coerceOptStr (dictGet d "nutritional_info")
    Except.ok ⟨chinese, pinyin, english, price, cultural, ingredients,
               spiciness, dietary, regional, pairings, nutritional⟩
  | _ => Except.error (PyErr.generic "TypeError")

/-- A validated `OcrResponse` (`main.py` lines 41–45); `detected_lang`
defaults to `"zh"` in the model class and is also passed explicitly. -/
structure MainOcrOut where
  original_text : String
  translated_text : String
  menu_items : List MainMenuItem
  detected_lang : String
deriving DecidableEq, Repr

/-- Construction of the `OcrResponse` from the parsed provider payload
(`main.py` lines 176–181). -/
def mkOcrResponse (d : List (String × Json)) : Except PyErr MainOcrOut := do
  let ot ← coerceStr (pyGet d "original_text" (Json.str ""))
  let tt ← coerceStr (pyGet d "translated_text" (Json.str ""))
  let items ← match pyGet d "menu_items" (Json.arr []) with
    | Json.arr xs => xs.mapM mkMenuItem
    | _ => Except.error (PyErr.generic "TypeError")
  Except.ok ⟨ot, tt, items, "zh"⟩

/-- The Gemini leg shared by the three FastAPI endpoints (`main.py`
lines 150–174 for `/ocr`): provider call, envelope extraction, fence
stripping, JSON parsing. -/
def fastParsed (loads : String → Except PyJsonError Json) (env : FastEnv) :
    Except PyErr Json :=
  match env.geminiResult with
  | Except.error msg => Except.error (PyErr.generic msg)
  | Except.ok g =>
    match geminiExtractF g with
    | Except.error e => Except.error e
    | Except.ok t =>
      match stripFenceS t with
      | none => Except.error (PyErr.generic "list index out of range")
      | some t2 =>
        match loads t2 with
        | Except.error e => Except.error (PyErr.jsonErr t2 e)
        | Except.ok j => Except.ok j

/-- The `try` body of `ocr_endpoint` (`main.py` lines 78–181). -/
def ocrTry (loads : String → Except PyJsonError Json)
    (req : FastReq) (env : FastEnv) : Except PyErr MainOcrOut :=
  -- image acquisition (lines 80–92)
  let imageOk : Except PyErr Unit :=
    match req.image with
    | some img =>
      let _imageData := dataStrip img
      if env.imageDecodeOk then Except.ok ()
      else Except.error (PyErr.generic "Invalid base64-encoded string")
    | none =>
      match req.image_url with
      | some _ =>
        match env.downloadResult with
        | Except.ok _ => Except.ok ()
        | Except.error m => Except.error (PyErr.generic m)
      | none =>
        Except.error (PyErr.httpExc 400 "Either image or image_url must be provided")
  match imageOk with
  | Except.error e => Except.error e
  | Except.ok _ =>
    -- API key (lines 95–97)
    match env.apiKey with
    | none => Except.error (PyErr.httpExc 500 "Gemini API key not configured")
    | some _ =>
      match fastParsed loads env with
      | Except.error e => Except.error e
      | Except.ok (Json.obj d) => mkOcrResponse d
      | Except.ok _ => Except.error (PyErr.generic "AttributeError")

/-- Outcome of a FastAPI endpoint: a 200 value or an error status+detail. -/
inductive FastResult where
  | ok : MainOcrOut → FastResult
  | err : Nat → String → FastResult
deriving DecidableEq, Repr

/-- `ocr_endpoint` (`main.py` lines 76–189).  The `except` clauses:

    except json.JSONDecodeError as e:
        raise HTTPException(status_code=500,
                            detail=f"Failed to parse Gemini response: {str(e)}")
    except Exception as e:
        raise HTTPException(status_code=500, detail=str(e))

`HTTPException` subclasses `Exception`, so an `HTTPException` raised inside
the `try` (including the 400 of line 92) is caught by the second clause and
re-raised with status 500 and detail `str(e) = "{code}: {detail}"`. -/
def ocrEndpoint (loads : String → Except PyJsonError Json)
    (req : FastReq) (env : FastEnv) : FastResult :=
  match ocrTry loads req env with
  | Except.ok r => FastResult.ok r
  | Except.error (PyErr.jsonErr doc e) =>
    FastResult.err 500 ("Failed to parse Gemini response: " ++ pyJsonErrorStr doc e)
  | Except.error (PyErr.httpExc code detail) =>
    FastResult.err 500 (toString code ++ ": " ++ detail)
  | Except.error (PyErr.generic msg) =>
    FastResult.err 500 msg

/-! ### `/batch-dish-details` (`main.py` lines 191–265) -/

/-- A `DishDetailsRequest` (`main.py` lines 15–18). -/
structure DishReq where
  chinese_name : String
  english_name : String
  pinyin : Option String
deriving DecidableEq, Repr

/-- `dish.pinyin if dish.pinyin else ''` (Python truthiness: `None` and the
empty string both display as `''`). -/
def pinyinDisplay (d : DishReq) : String :=
  match d.pinyin with
  | some p => if p = "" then "" else p
  | none => ""

/-- One line of the prompt's dish list (`main.py` lines 202–205):
`f"{i+1}. {dish.chinese_name} ({dish.pinyin if dish.pinyin else ''}) - {dish.english_name}"`. -/
def dishLine (i : Nat) (d : DishReq) : String :=
  toString (i + 1) ++ ". " ++ d.chinese_name ++ " (" ++ pinyinDisplay d ++ ") - " ++
    d.english_name

/-- The enumerated dish list embedded in the prompt (`"\n".join(...)`
over `enumerate(payload.dishes)`), kept as a list of lines. -/
def dishLines (ds : List DishReq) : List String :=
  ds.enum.map (fun p => dishLine p.1 p.2)

/-- `dishes_list` as joined into the prompt text. -/
def dishesList (ds : List DishReq) : String :=
  String.intercalate "\n" (dishLines ds)

/-- The `try` body of `batch_dish_details_endpoint` up to the parsed provider
payload (`main.py` lines 194–257): API key check, provider call, envelope
extraction, fence stripping, JSON parsing.  The dish list shapes only the
prompt; the parsed payload is returned without validation. -/
def batchCore (loads : String → Except PyJsonError Json) (env : FastEnv) :
    Except PyErr Json :=
  match env.apiKey with
  | none => Except.error (PyErr.httpExc 500 "Gemini API key not configured")
  | some _ => fastParsed loads env

/-- Outcome of `/batch-dish-details`: a 200 JSON body or an error
status+detail. -/
inductive BatchDetailsResult where
  | ok : Json → BatchDetailsResult
  | err : Nat → String → BatchDetailsResult

/-- `batch_dish_details_endpoint` (`main.py` lines 191–265): on success the
body is `{"details": result_json}` (line 258), the parsed provider payload
wrapped unvalidated; the `except` clauses (lines 260–265) mirror
`ocr_endpoint`'s. -/
def batchDishDetailsEndpoint (loads : String → Except PyJsonError Json)
    (ds : List DishReq) (env : FastEnv) : BatchDetailsResult :=
  let _prompt := dishesList ds
  match batchCore loads env with
  | Except.ok j => BatchDetailsResult.ok (Json.obj [("details", j)])
  | Except.error (PyErr.jsonErr doc e) =>
    BatchDetailsResult.err 500 ("Failed to parse response: " ++ pyJsonErrorStr doc e)
  | Except.error (PyErr.httpExc code detail) =>
    BatchDetailsResult.err 500 (toString code ++ ": " ++ detail)
  | Except.error (PyErr.generic msg) =>
    BatchDetailsResult.err 500 msg

/-! ### The standalone Vision OCR server `ocr_server_google.py` -/

/-- A result dict as built by the `/ocr` route (`ocr_server_google.py`
lines 90–96 and 181–213). -/
structure GResult where
  success : Bool
  text : String
  language : String
  source : String
  timestamp : String
deriving DecidableEq, Repr

/-- The canned Chinese menu text of `get_mock_chinese_menu_data`
(lines 183–209). -/
def mockMenuText : String :=
  "凉菜\n花生豆腐汤 ——— 8元\n鱼香肉丝套餐 ——— 8元\n宫保鸡丁套餐 ——— 8元\n\n汤类\n花蛤豆腐汤 ——— 8元\n鱼头豆腐汤 ——— 12元\n干贝冬瓜汤 ——— 15元\n七彩牛肉羹 ——— 15元\n\n热菜粥粉\n海鲜粥 ——— 8元\n香滑田鸡粥 ——— 8元\n鸡汁汤面 ——— 5元\n排骨面 ——— 6元\n海鲜汤面 ——— 7元\n海鲜米粉汤 ——— 7元\n特色卤面 ——— 8元\n海鲜乌冬面 ——— 8元\n\n单品菜\n川味回锅肉 ——— 10元\n梦城茄枝肉 ——— 10元\n鱼香肉丝 ——— 10元\n青椒炒肉丝 ——— 10元\n剁椒鱼头 ——— 20元"

/-- `get_mock_chinese_menu_data` (lines 179–213): a successful mock result
stamped with the current time. -/
def mockChineseMenuData (now : String) : GResult :=
  ⟨true, mockMenuText, "zh", "mock_data", now⟩

/-- Environment of one `/ocr` request to the standalone server:
`GOOGLE_VISION_API_KEY`, the Vision call's HTTP status and parsed JSON body,
and the wall clock (`datetime.now().isoformat()`). -/
structure GEnv where
  apiKey : Option String
  visionStatus : Nat
  visionBody : List (String × Json)
  now : String

/-- Outcome of one `/ocr` request: `send_success_response` (HTTP 200) or
`send_error_response` (HTTP 500 with `{'success': False, 'error': msg}`). -/
inductive GOut where
  | success : GResult → GOut
  | failure : String → GOut
deriving DecidableEq, Repr

/-- Classification of the Vision response body (lines 84–105). -/
inductive VisionParse where
  | text : String → VisionParse
  | noText : VisionParse
  | invalid : VisionParse
  | exc : String → VisionParse
deriving DecidableEq, Repr

/-- `if 'responses' in vision_data and vision_data['responses']: ...`
(lines 84–105).  Shapes on which the Python indexing itself would raise are
classified `exc` (caught by the handler's `except` into an error response);
a non-string `description` would be embedded as-is by the code, a corner no
claim exercises, also routed to `exc` here. -/
def visionExtract (b : List (String × Json)) : VisionParse :=
  match dictGet b "responses" with
  | none => VisionParse.invalid
  | some v =>
    if pyTruthy v then
      match v with
      | Json.arr (r :: _) =>
        match r with
        | Json.obj rd =>
          let ta := pyGet rd "textAnnotations" (Json.arr [])
          if pyTruthy ta then
            match ta with
            | Json.arr (a :: _) =>
              match a with
              | Json.obj ad =>
                match dictGet ad "description" with
                | some (Json.str t) => VisionParse.text t
                | some _ => VisionParse.exc "non-string description"
                | none => VisionParse.exc "KeyError"
              | _ => VisionParse.exc "TypeError"
            | _ => VisionParse.exc "TypeError"
          else VisionParse.noText
        | _ => VisionParse.exc "AttributeError"
      | _ => VisionParse.exc "TypeError"
    else VisionParse.invalid

/-- Cache lookup (`if image_hash in ocr_cache`). -/
def cacheFind (cache : List (String × GResult)) (k : String) : Option GResult :=
  (cache.find? (fun p => p.1 == k)).map (fun p => p.2)

/-- One `/ocr` request to the standalone server (`OCRHandler.do_POST`,
lines 27–114), parameterised by the fingerprint function `h` standing for
`hashlib.md5(image_data.encode()).hexdigest()`.  Returns the cache after the
request, the response, and whether a Vision provider call was issued.

The cache is written only on the Vision success path (line 99); the
no-API-key fallback (lines 54–59) and the non-200 fallback (lines 106–110)
serve freshly stamped mock data without caching it. -/
def ocrServerStep (h : String → String) (cache : List (String × GResult))
    (image : String) (env : GEnv) :
    List (String × GResult) × GOut × Bool :=
  let imageData := dataStrip image
  let key := h imageData
  match cacheFind cache key with
  | some r => (cache, GOut.success r, false)
  | none =>
    match env.apiKey with
    | none => (cache, GOut.success (mockChineseMenuData env.now), false)
    | some _ =>
      if env.visionStatus = 200 then
        match visionExtract env.visionBody with
        | VisionParse.text t =>
          let result : GResult := ⟨true, t, "zh", "google_vision", env.now⟩
          ((key, result) :: cache, GOut.success result, true)
        | VisionParse.noText => (cache, GOut.failure "No text found in image", true)
        | VisionParse.invalid =>
          (cache, GOut.failure "Invalid response from Vision API", true)
        | VisionParse.exc m => (cache, GOut.failure m, true)
      else (cache, GOut.success (mockChineseMenuData env.now), true)

/-! ### Provider construction `services/ocr/app/ocr.py` -/

/-- Python `str.lower()` restricted to ASCII (the `OCR_PROVIDER` values the
code compares against are ASCII). -/
def pyLower (s : String) : String :=
  (s.data.map (fun c =>
    if 'A' ≤ c ∧ c ≤ 'Z' then Char.ofNat (c.toNat + 32) else c)).asString

/-- Environment of provider construction: the `OCR_PROVIDER` variable, the
service-account file, the two credentials, and whether the optional
dependencies construct successfully. -/
structure ProviderEnv where
  ocrProviderVar : Option String
  saFileExists : Bool
  saSdkOk : Bool
  visionApiKey : Option String
  visionSdkOk : Bool
  visionSdkFailMsg : String
  paddleOk : Bool
  paddleFailMsg : String

/-- The concrete `OcrProvider` instances `build_provider` can return.  There
is no offline/mock variant: no constructor of this type serves canned
text. -/
inductive OcrProviderKind where
  | apiKeySdk : OcrProviderKind
  | apiKeyRest : String → OcrProviderKind
  | paddle : OcrProviderKind
  | visionSdk : OcrProviderKind
deriving DecidableEq, Repr

/-- `GoogleVisionApiKeyProvider.__init__` (`ocr.py` lines 68–95): service
account SDK if the key file exists and the client constructs, else the REST
API key, else `RuntimeError`. -/
def googleVisionApiKeyInit (env : ProviderEnv) : Except String OcrProviderKind :=
  if env.saFileExists ∧ env.saSdkOk then Except.ok OcrProviderKind.apiKeySdk
  else
    match env.visionApiKey with
    | some k => Except.ok (OcrProviderKind.apiKeyRest k)
    | none => Except.error
        "Google Vision credentials not found. Please provide google-ocr-key.json or set GOOGLE_VISION_API_KEY"

/-- `PaddleOcrProvider.__init__` (`ocr.py` lines 26–32). -/
def paddleInit (env : ProviderEnv) : Except String OcrProviderKind :=
  if env.paddleOk then Except.ok OcrProviderKind.paddle
  else Except.error ("PaddleOCR not available: " ++ env.paddleFailMsg)

/-- `VisionOcrProvider.__init__` (`ocr.py` lines 48–54). -/
def visionOcrInit (env : ProviderEnv) : Except String OcrProviderKind :=
  if env.visionSdkOk then Except.ok OcrProviderKind.visionSdk
  else Except.error ("Google Vision not available: " ++ env.visionSdkFailMsg)

/-- `build_provider` (`ocr.py` lines 192–208):

    provider = os.getenv("OCR_PROVIDER", "vision-api-key").lower()
    if provider == "vision-api-key":
        try:
            return GoogleVisionApiKeyProvider()
        except RuntimeError as e:
            print(...)
            provider = "vision"
    if provider == "paddle":
        return PaddleOcrProvider()
    return VisionOcrProvider()

Only the first constructor call is guarded; a `RuntimeError` from
`PaddleOcrProvider()` or `VisionOcrProvider()` propagates to the caller. -/
def build_provider (env : ProviderEnv) : Except String OcrProviderKind :=
  let provider := pyLower (env.ocrProviderVar.getD "vision-api-key")
  if provider = "vision-api-key" then
    match googleVisionApiKeyInit env with
    | Except.ok p => Except.ok p
    | Except.error _ => visionOcrInit env
  else if provider = "paddle" then paddleInit env
  else visionOcrInit env

/-! ## Claims -/

/-- C1: for every batch request with `batch_number ≥ 1` and the fixed
`items_per_batch = 2`, the window computed before the provider call
satisfies `start = 2*(batch_number-1)+1` and `end = start+1`, and both
bounds are ≥ 1. -/
theorem batch_window_arithmetic (b : Int) (h : 1 ≤ b) :
    startDish b = 2 * (b - 1) + 1 ∧ endDish b = startDish b + 1 ∧
    1 ≤ startDish b ∧ 1 ≤ endDish b := by
  simp only [startDish, endDish, dishesPerBatch]
  omega

/-- Witness for C1 at batch 3 (window `[5, 6]`); batch 1 gives `[1, 2]`. -/
theorem batch_window_arithmetic_witness :
    (startDish 3 = 2 * (3 - 1) + 1 ∧ endDish 3 = startDish 3 + 1 ∧
      1 ≤ startDish 3 ∧ 1 ≤ endDish 3) ∧
    startDish 1 = 1 ∧ endDish 1 = 2 ∧ startDish 3 = 5 ∧ endDish 3 = 6 :=
  ⟨batch_window_arithmetic 3 (by norm_num), by decide, by decide, by decide, by decide⟩

/-- C4 counterexample: the fence-stripping step is not idempotent.  The text
`"```json\n```\nabc\n```"` begins with a fenced code block, one application
strips it to `"```\nabc"` (which again starts with a fence marker), and a
second application strips further to `"abc"`. -/
theorem stripFence_not_idempotent_cex :
    fenceStarts ("```json\n```\nabc\n```").data = true ∧
    stripFenceS "```json\n```\nabc\n```" = some "```\nabc" ∧
    stripFenceS "```\nabc" = some "abc" ∧
    (stripFenceS "```json\n```\nabc\n```").bind stripFenceS ≠
      stripFenceS "```json\n```\nabc\n```" := by
  refine ⟨by decide, by decide, by decide, by decide⟩

/-- C4 amended: fence stripping is idempotent on every fenced text whose
stripped result does not itself begin with a fence marker (a second
application then leaves the result unchanged). -/
theorem stripFence_idempotent_of_unfenced_result (s y : String)
    (h1 : fenceStarts s.data = true) (h2 : stripFenceS s = some y)
    (h3 : fenceStarts y.data = false) : stripFenceS y = some y := by
  cases y with
  | mk data =>
    simp only [String.data] at h3
    simp [stripFenceS, stripFence, h3, List.asString]

/-- Witness for C4's amended theorem at `"```json\n{}\n```"`. -/
theorem stripFence_idempotent_witness :
    stripFenceS "\x7b\x7d" = some "\x7b\x7d" ∧
    stripFenceS "```json\n\x7b\x7d\n```" = some "\x7b\x7d" :=
  ⟨stripFence_idempotent_of_unfenced_result "```json\n\x7b\x7d\n```" "\x7b\x7d"
      (by decide) (by decide) (by decide),
   by decide⟩

/-- C3: parsing a well-formed provider payload never fails because an
optional field is absent: absent `menu_items` yields the empty sequence,
absent `has_more` yields `false`, absent `total_dishes_estimate` yields
`len(menu_items)`; `{"menu_items": []}` yields `has_more = false` and
`total_dishes_estimate = 0`; and in count-only mode an absent `total_dishes`
yields `0`. -/
theorem contract_parse_defaults :
    (∀ d bn, dictGet d "menu_items" = none →
      menuBatchResponse d bn =
        some [("original_text", pyGet d "original_text" (Json.str "")),
              ("translated_text", pyGet d "translated_text" (Json.str "")),
              ("menu_items", Json.arr []),
              ("has_more", pyGet d "has_more" (Json.bool false)),
              ("total_dishes_estimate",
                pyGet d "total_dishes_estimate" (Json.num 0)),
              ("batch_number", Json.num bn),
              ("detected_lang", Json.str "zh")]) ∧
    (∀ d bn n r, pyLen (pyGet d "menu_items" (Json.arr [])) = some n →
      menuBatchResponse d bn = some r →
      (dictGet d "has_more" = none →
        dictGet r "has_more" = some (Json.bool false)) ∧
      (dictGet d "total_dishes_estimate" = none →
        dictGet r "total_dishes_estimate" = some (Json.num (Int.ofNat n)))) ∧
    (menuBatchResponse [("menu_items", Json.arr [])] 1 =
      some [("original_text", Json.str ""), ("translated_text", Json.str ""),
            ("menu_items", Json.arr []), ("has_more", Json.bool false),
            ("total_dishes_estimate", Json.num 0), ("batch_number", Json.num 1),
            ("detected_lang", Json.str "zh")]) ∧
    (∀ d, dictGet d "total_dishes" = none →
      countOnlyResponse d = [("total_dishes", Json.num 0)]) := by
  refine ⟨?_, ?_, rfl, ?_⟩
  · intro d bn h
    simp [menuBatchResponse, pyGet, h, pyLen]
  · intro d bn n r hl hr
    unfold menuBatchResponse at hr
    rw [hl] at hr
    have hr2 := Option.some.inj hr
    subst hr2
    constructor
    · intro hm
      have hd : dictGet
          [("original_text", pyGet d "original_text" (Json.str "")),
           ("translated_text", pyGet d "translated_text" (Json.str "")),
           ("menu_items", pyGet d "menu_items" (Json.arr [])),
           ("has_more", pyGet d "has_more" (Json.bool false)),
           ("total_dishes_estimate",
             pyGet d "total_dishes_estimate" (Json.num (Int.ofNat n))),
           ("batch_number", Json.num bn),
           ("detected_lang", Json.str "zh")] "has_more" =
          some (pyGet d "has_more" (Json.bool false)) := rfl
      rw [hd, pyGet, hm]
      rfl
    · intro he
      have hd : dictGet
          [("original_text", pyGet d "original_text" (Json.str "")),
           ("translated_text", pyGet d "translated_text" (Json.str "")),
           ("menu_items", pyGet d "menu_items" (Json.arr [])),
           ("has_more", pyGet d "has_more" (Json.bool false)),
           ("total_dishes_estimate",
             pyGet d "total_dishes_estimate" (Json.num (Int.ofNat n))),
           ("batch_number", Json.num bn),
           ("detected_lang", Json.str "zh")] "total_dishes_estimate" =
          some (pyGet d "total_dishes_estimate" (Json.num (Int.ofNat n))) := rfl
      rw [hd, pyGet, he]
      rfl
  · intro d h
    simp [countOnlyResponse, pyGet, h]

/-- Witness for C3: the empty provider payload in regular mode and in
count-only mode. -/
theorem contract_parse_defaults_witness :
    menuBatchResponse [] 1 =
      some [("original_text", Json.str ""), ("translated_text", Json.str ""),
            ("menu_items", Json.arr []), ("has_more", Json.bool false),
            ("total_dishes_estimate", Json.num 0), ("batch_number", Json.num 1),
            ("detected_lang", Json.str "zh")] ∧
    countOnlyResponse [] = [("total_dishes", Json.num 0)] := by
  have h1 := contract_parse_defaults.1 [] 1 rfl
  have h4 := contract_parse_defaults.2.2.2 [] rfl
  exact ⟨h1, h4⟩

/-- The invariant asserted by C2, as a decidable check on a parsed provider
payload `d` and batch number `bn`: whenever the provider supplied
`total_dishes_estimate`, the returned batch satisfies
`total_dishes_estimate ≥ len(menu_items)`; and whenever the provider-claimed
count is smaller than `start_index`, the returned batch has empty
`menu_items` and `has_more = false`.  (Vacuously true when the handler
raises instead of responding.) -/
def claimedBatchInvariant (d : List (String × Json)) (bn : Int) : Bool :=
  match menuBatchResponse d bn with
  | none => true
  | some r =>
    let itemsLen : Int :=
      match dictGet r "menu_items" with
      | some (Json.arr xs) => Int.ofNat xs.length
      | _ => 0
    (match dictGet d "total_dishes_estimate" with
     | some (Json.num e) => decide (itemsLen ≤ e)
     | _ => true) &&
    (match dictGet d "total_dishes_estimate" with
     | some (Json.num e) =>
       if e < startDish bn then
         (match dictGet r "menu_items" with
          | some (Json.arr []) => true
          | _ => false) &&
         (match dictGet r "has_more" with
          | some (Json.bool false) => true
          | _ => false)
       else true
     | _ => true)

/-- C2 counterexample: the handler passes the provider's fields through
without validation.  For the payload
`{"menu_items": [{}], "total_dishes_estimate": 0, "has_more": true}` at
batch 1 the returned batch carries `total_dishes_estimate = 0` with one menu
item (violating `estimate ≥ len(items)`) and, although the claimed count 0
is smaller than `start_index = 1`, a non-empty item list with
`has_more = true`. -/
theorem batch_result_invariant_cex :
    claimedBatchInvariant
      [("menu_items", Json.arr [Json.obj []]),
       ("total_dishes_estimate", Json.num 0),
       ("has_more", Json.bool true)] 1 = false ∧
    menuBatchResponse
      [("menu_items", Json.arr [Json.obj []]),
       ("total_dishes_estimate", Json.num 0),
       ("has_more", Json.bool true)] 1 =
      some [("original_text", Json.str ""), ("translated_text", Json.str ""),
            ("menu_items", Json.arr [Json.obj []]),
            ("has_more", Json.bool true),
            ("total_dishes_estimate", Json.num 0),
            ("batch_number", Json.num 1),
            ("detected_lang", Json.str "zh")] :=
  ⟨rfl, rfl⟩

/-- C2 amended: the returned batch is a pass-through of the provider payload
with defaults — `menu_items` and `has_more` are returned as supplied, a
provider-supplied `total_dishes_estimate` is returned unvalidated, and the
invariant `total_dishes_estimate ≥ len(menu_items)` is guaranteed exactly
when the provider omitted the estimate (it then defaults to
`len(menu_items)`); the empty-batch terminal shape likewise holds only if
the provider's payload itself satisfies it. -/
theorem batch_result_passthrough (d : List (String × Json)) (bn : Int)
    (xs : List Json) (r : List (String × Json))
    (hm : dictGet d "menu_items" = some (Json.arr xs))
    (hr : menuBatchResponse d bn = some r) :
    dictGet r "menu_items" = some (Json.arr xs) ∧
    dictGet r "has_more" = some (pyGet d "has_more" (Json.bool false)) ∧
    dictGet r "total_dishes_estimate" =
      some (pyGet d "total_dishes_estimate" (Json.num (Int.ofNat xs.length))) ∧
    (dictGet d "total_dishes_estimate" = none →
      ∃ e : Int, dictGet r "total_dishes_estimate" = some (Json.num e) ∧
        Int.ofNat xs.length ≤ e) := by
  have hpg : pyGet d "menu_items" (Json.arr []) = Json.arr xs := by
    rw [pyGet, hm]
    rfl
  unfold menuBatchResponse at hr
  rw [hpg] at hr
  simp only [pyLen] at hr
  have hr2 := Option.some.inj hr
  subst hr2
  refine ⟨rfl, rfl, rfl, ?_⟩
  intro he
  refine ⟨Int.ofNat xs.length, ?_, le_refl _⟩
  have hd : pyGet d "total_dishes_estimate" (Json.num (Int.ofNat xs.length)) =
      Json.num (Int.ofNat xs.length) := by
    rw [pyGet, he]
    rfl
  show some (pyGet d "total_dishes_estimate" (Json.num (Int.ofNat xs.length))) =
    some (Json.num (Int.ofNat xs.length))
  rw [hd]

/-- Witness for C2's amended theorem: provider payload
`{"menu_items": [{}]}` (estimate omitted) at batch 1. -/
theorem batch_result_passthrough_witness :
    dictGet [("original_text", Json.str ""), ("translated_text", Json.str ""),
             ("menu_items", Json.arr [Json.obj []]),
             ("has_more", Json.bool false),
             ("total_dishes_estimate", Json.num 1),
             ("batch_number", Json.num 1),
             ("detected_lang", Json.str "zh")] "menu_items" =
      some (Json.arr [Json.obj []]) ∧
    (∃ e : Int, dictGet [("original_text", Json.str ""),
             ("translated_text", Json.str ""),
             ("menu_items", Json.arr [Json.obj []]),
             ("has_more", Json.bool false),
             ("total_dishes_estimate", Json.num 1),
             ("batch_number", Json.num 1),
             ("detected_lang", Json.str "zh")] "total_dishes_estimate" =
        some (Json.num e) ∧ Int.ofNat 1 ≤ e) := by
  have h := batch_result_passthrough [("menu_items", Json.arr [Json.obj []])] 1
    [Json.obj []]
    [("original_text", Json.str ""), ("translated_text", Json.str ""),
     ("menu_items", Json.arr [Json.obj []]),
     ("has_more", Json.bool false),
     ("total_dishes_estimate", Json.num 1),
     ("batch_number", Json.num 1),
     ("detected_lang", Json.str "zh")] rfl rfl
  exact ⟨h.1, h.2.2.2 rfl⟩

/-- A minimal well-formed Gemini envelope wrapping model text `t`
(`{"candidates": [{"content": {"parts": [{"text": t}]}}]}`), used to drive
the handlers at concrete provider outputs. -/
def geminiEnvelope (t : String) : List (String × Json) :=
  [("candidates", Json.arr [Json.obj [("content",
     Json.obj [("parts", Json.arr [Json.obj [("text", Json.str t)]])])]])]

/-- C7 amended: when the post-fence-stripped provider text fails JSON
parsing, the failure is raised as a `json.JSONDecodeError` and surfaced to
the caller as an HTTP 500 whose `error` field is
`"JSON parse error: " + str(e)` — the parser's message and error position,
not the full offending text (and not the text's length, see the
counterexample); it is never silently swallowed. -/
theorem malformed_json_surfaced :
    (∀ (loads : String → Except PyJsonError Json) (env : MenuEnv) g t t2 e,
      env.geminiResult = Except.ok g → geminiExtract g = Except.ok t →
      stripFenceS t = some t2 → loads t2 = Except.error e →
      menuParsed loads env = Except.error (PyErr.jsonErr t2 e)) ∧
    (∀ (loads : String → Except PyJsonError Json)
       (payload : List (String × Json)) (env : MenuEnv) (k : String)
       (bn : Int) (doc : String) (e : PyJsonError),
      env.apiKey = some k →
      pyTruthy (pyGet payload "count_only" (Json.bool false)) = false →
      jsonInt (pyGet payload "batch_number" (Json.num 1)) = some bn →
      env.imageDecodeOk = true →
      menuParsed loads env = Except.error (PyErr.jsonErr doc e) →
      menuDoPost loads payload env =
        (500, [("error",
          Json.str ("JSON parse error: " ++ pyJsonErrorStr doc e))])) := by
  constructor
  · intro loads env g t t2 e hg ht hs hl
    unfold menuParsed
    rw [hg]
    simp [ht, hs, hl]
  · intro loads payload env k bn doc e hk hco hbn hdec hp
    unfold menuDoPost menuCore
    rw [hk, hco, hbn, hdec, hp]
    simp

/-- Witness for C7's amended theorem: provider text `"not json"` through the
full `api/menu.py` pipeline. -/
theorem malformed_json_surfaced_witness :
    menuDoPost pyJsonLoads []
      ⟨some "key", true, Except.ok (geminiEnvelope "not json")⟩ =
      (500, [("error",
        Json.str ("JSON parse error: " ++
          pyJsonErrorStr "not json" ⟨"Expecting value", 0⟩))]) :=
  malformed_json_surfaced.2 pyJsonLoads []
    ⟨some "key", true, Except.ok (geminiEnvelope "not json")⟩ "key" 1
    "not json" ⟨"Expecting value", 0⟩ rfl rfl rfl rfl
    (malformed_json_surfaced.1 pyJsonLoads
      ⟨some "key", true, Except.ok (geminiEnvelope "not json")⟩
      (geminiEnvelope "not json") "not json" "not json" ⟨"Expecting value", 0⟩
      rfl rfl rfl rfl)

/-- C7 counterexample: the diagnostic does not carry the offending text's
length.  The offending texts `"{x}"` (length 3) and `"{xy}"` (length 4)
produce the identical `JSONDecodeError` and the identical full HTTP
response, so the surfaced diagnostic cannot determine — let alone carry —
the offending text's length. -/
theorem malformed_json_length_cex :
    menuDoPost pyJsonLoads []
        ⟨some "key", true, Except.ok (geminiEnvelope "\x7bx\x7d")⟩ =
      menuDoPost pyJsonLoads []
        ⟨some "key", true, Except.ok (geminiEnvelope "\x7bxy\x7d")⟩ ∧
    ("\x7bx\x7d" : String).length = 3 ∧ ("\x7bxy\x7d" : String).length = 4 ∧
    menuDoPost pyJsonLoads []
        ⟨some "key", true, Except.ok (geminiEnvelope "\x7bx\x7d")⟩ =
      (500, [("error", Json.str
        ("JSON parse error: Expecting property name enclosed in double quotes: line 1 column 2 (char 1)"))]) :=
  ⟨rfl, rfl, rfl, rfl⟩

/-- Every successful batch response carries `detected_lang = "zh"`. -/
theorem menuBatchResponse_detected_lang (d : List (String × Json)) (bn : Int)
    (r : List (String × Json)) (h : menuBatchResponse d bn = some r) :
    dictGet r "detected_lang" = some (Json.str "zh") := by
  unfold menuBatchResponse at h
  split at h
  · simp at h
  · have h2 := Option.some.inj h
    subst h2
    rfl

/-- The count-only response has no `detected_lang` field. -/
theorem countOnlyResponse_no_detected_lang (d : List (String × Json)) :
    dictGet (countOnlyResponse d) "detected_lang" = none := rfl

/-- A successful `menuCore` body is a count-only or a batch response. -/
theorem menuCore_ok_shape (loads : String → Except PyJsonError Json)
    (p : List (String × Json)) (env : MenuEnv) (b : List (String × Json))
    (h : menuCore loads p env = Except.ok b) :
    (∃ d, b = countOnlyResponse d) ∨
    (∃ d bn, menuBatchResponse d bn = some b) := by
  simp only [menuCore] at h
  repeat' split at h
  all_goals try exact Except.noConfusion h
  · exact Or.inl ⟨_, (Except.ok.inj h).symm⟩
  · rename_i hsome
    exact Or.inr ⟨_, _, hsome.trans (congrArg some (Except.ok.inj h))⟩

/-- A successful `apiOcrCore` body is an `apiOcrResponse`. -/
theorem apiOcrCore_ok_shape (loads : String → Except PyJsonError Json)
    (env : MenuEnv) (b : List (String × Json))
    (h : apiOcrCore loads env = Except.ok b) :
    ∃ d, b = apiOcrResponse d := by
  simp only [apiOcrCore] at h
  repeat' split at h
  all_goals try exact Except.noConfusion h
  exact ⟨_, (Except.ok.inj h).symm⟩

/-- A successful `mkOcrResponse` carries `detected_lang = "zh"`. -/
theorem mkOcrResponse_detected (d : List (String × Json)) (r : MainOcrOut)
    (h : mkOcrResponse d = Except.ok r) : r.detected_lang = "zh" := by
  simp only [mkOcrResponse, bind, Except.bind] at h
  repeat' split at h
  all_goals try exact Except.noConfusion h
  rw [← Except.ok.inj h]

/-- A successful `ocrTry` carries `detected_lang = "zh"`. -/
theorem ocrTry_detected (loads : String → Except PyJsonError Json)
    (req : FastReq) (env : FastEnv) (r : MainOcrOut)
    (h : ocrTry loads req env = Except.ok r) : r.detected_lang = "zh" := by
  simp only [ocrTry] at h
  repeat' split at h
  all_goals try exact Except.noConfusion h
  all_goals exact mkOcrResponse_detected _ _ h

/-- C10: for every successful extract/OCR request, the `detected_lang` field
of the response is the constant `"zh"`, independent of the requested
`source_lang`/`target_lang` (neither appears in any response builder) and of
the provider's output: in `api/menu.py` every 200 body that has a
`detected_lang` field has it equal to `"zh"` (the count-only body has none);
in `api/ocr.py` and in the FastAPI `/ocr` endpoint every 200 response
carries `detected_lang = "zh"`. -/
theorem detected_lang_constant :
    (∀ (loads : String → Except PyJsonError Json)
       (payload : List (String × Json)) (env : MenuEnv) body,
      menuDoPost loads payload env = (200, body) →
      ∀ v, dictGet body "detected_lang" = some v → v = Json.str "zh") ∧
    (∀ (loads : String → Except PyJsonError Json) (env : MenuEnv) body,
      apiOcrDoPost loads env = (200, body) →
      dictGet body "detected_lang" = some (Json.str "zh")) ∧
    (∀ (loads : String → Except PyJsonError Json)
       (req : FastReq) (env : FastEnv) (r : MainOcrOut),
      ocrEndpoint loads req env = FastResult.ok r →
      r.detected_lang = "zh") := by
  refine ⟨?_, ?_, ?_⟩
  · intro loads payload env body h v hv
    unfold menuDoPost at h
    split at h
    · rename_i b hb
      obtain rfl : b = body := congrArg Prod.snd h
      rcases menuCore_ok_shape _ _ _ _ hb with ⟨d, rfl⟩ | ⟨d, bn, hd⟩
      · rw [countOnlyResponse_no_detected_lang] at hv
        cases hv
      · rw [menuBatchResponse_detected_lang _ _ _ hd] at hv
        exact (Option.some.inj hv).symm
    · simp at h
    · simp at h
    · simp at h
  · intro loads env body h
    unfold apiOcrDoPost at h
    split at h
    · rename_i b hb
      obtain rfl : b = body := congrArg Prod.snd h
      obtain ⟨d, rfl⟩ := apiOcrCore_ok_shape _ _ _ hb
      rfl
    · simp at h
    · simp at h
    · simp at h
  · intro loads req env r h
    unfold ocrEndpoint at h
    split at h
    · rename_i r2 hb
      exact ocrTry_detected _ _ _ _
        (hb.trans (congrArg Except.ok (FastResult.ok.inj h)))
    · simp at h
    · simp at h
    · simp at h

/-- Witness for C10: concrete successful runs of the `api/menu.py` handler
and of the FastAPI `/ocr` endpoint with provider text `"{}"`. -/
theorem detected_lang_constant_witness :
    menuDoPost pyJsonLoads []
      ⟨some "key", true, Except.ok (geminiEnvelope "\x7b\x7d")⟩ =
      (200, [("original_text", Json.str ""), ("translated_text", Json.str ""),
             ("menu_items", Json.arr []), ("has_more", Json.bool false),
             ("total_dishes_estimate", Json.num 0),
             ("batch_number", Json.num 1),
             ("detected_lang", Json.str "zh")]) ∧
    Json.str "zh" = Json.str "zh" ∧
    ({ original_text := "", translated_text := "", menu_items := [],
       detected_lang := "zh" } : MainOcrOut).detected_lang = "zh" :=
  ⟨rfl,
   detected_lang_constant.1 pyJsonLoads []
     ⟨some "key", true, Except.ok (geminiEnvelope "\x7b\x7d")⟩
     [("original_text", Json.str ""), ("translated_text", Json.str ""),
      ("menu_items", Json.arr []), ("has_more", Json.bool false),
      ("total_dishes_estimate", Json.num 0), ("batch_number", Json.num 1),
      ("detected_lang", Json.str "zh")] rfl (Json.str "zh") rfl,
   detected_lang_constant.2.2 pyJsonLoads ⟨some "img", none, some "en"⟩
     ⟨some "key", Except.ok "bytes", true, Except.ok (geminiEnvelope "\x7b\x7d")⟩
     ⟨"", "", [], "zh"⟩ rfl⟩

/-- C6: for every extract request supplying neither `image` nor `image_url`,
the FastAPI `/ocr` endpoint responds with HTTP 500, not the claimed 400: the
`HTTPException(400)` raised at `main.py` line 92 is an `Exception`, so the
catch-all `except Exception` at line 187 intercepts it and re-raises it as
`HTTPException(500, str(e))`. -/
theorem missing_image_returns_500
    (loads : String → Except PyJsonError Json) (env : FastEnv) :
    ocrEndpoint loads ⟨none, none, some "en"⟩ env =
      FastResult.err 500 "400: Either image or image_url must be provided" := rfl

/-- C5 counterexample: with no service-account file, no API key, the default
`OCR_PROVIDER` and an unconstructible Vision SDK client, `build_provider`
raises (`RuntimeError("Google Vision not available: ...")`) instead of
returning a mock client — indeed `OcrProviderKind` has no offline/mock
variant at all. -/
theorem provider_fallback_cex :
    build_provider
      ⟨none, false, false, none, false, "DefaultCredentialsError", false, "x"⟩ =
      Except.error "Google Vision not available: DefaultCredentialsError" ∧
    (build_provider
      ⟨none, false, false, none, false, "DefaultCredentialsError", false, "x"⟩).isOk
      = false :=
  ⟨rfl, rfl⟩

/-- C5 amended: with no service-account file and no API key, `build_provider`
falls back from the API-key provider to the SDK Vision provider and raises
`RuntimeError` when that client cannot be constructed; the deterministic
offline/mock fallback that serves canned sample text lives in the standalone
OCR server's request handler (`ocr_server_google.py` lines 54–59), which,
given no API key, answers 200 with freshly stamped mock data, never raises,
and issues no provider call. -/
theorem provider_fallback :
    (∀ env : ProviderEnv, env.ocrProviderVar = none → env.saFileExists = false →
      env.visionApiKey = none → env.visionSdkOk = false →
      build_provider env =
        Except.error ("Google Vision not available: " ++ env.visionSdkFailMsg)) ∧
    (∀ (h : String → String) (cache : List (String × GResult)) (image : String)
       (env : GEnv), env.apiKey = none →
      cacheFind cache (h (dataStrip image)) = none →
      ocrServerStep h cache image env =
        (cache, GOut.success (mockChineseMenuData env.now), false)) := by
  constructor
  · intro env h1 h2 h3 h4
    obtain ⟨v, sa, sasdk, vkey, vok, vmsg, pok, pmsg⟩ := env
    simp only at h1 h2 h3 h4
    subst h1 h2 h3 h4
    rfl
  · intro h cache image env h1 h2
    obtain ⟨k, vs, vb, now⟩ := env
    simp only at h1
    subst h1
    simp [ocrServerStep, h2]

/-- Witness for C5's amended theorem at a concrete no-credentials
environment and a concrete first request. -/
theorem provider_fallback_witness :
    build_provider ⟨none, false, false, none, false, "no creds", false, "x"⟩ =
      Except.error ("Google Vision not available: " ++ "no creds") ∧
    ocrServerStep (fun s => s) [] "img" ⟨none, 0, [], "t0"⟩ =
      ([], GOut.success (mockChineseMenuData "t0"), false) :=
  ⟨provider_fallback.1 ⟨none, false, false, none, false, "no creds", false, "x"⟩
      rfl rfl rfl rfl,
   provider_fallback.2 (fun s => s) [] "img" ⟨none, 0, [], "t0"⟩ rfl rfl⟩

/-- C8 counterexample: a successful single-shot OCR call is not always
cached.  With no API key configured, two byte-identical requests both
succeed (HTTP 200) through the mock fallback, yet the cache stays empty, and
the second response is a freshly stamped recomputation that differs from the
first — not "the identical cached result". -/
theorem cache_idempotence_cex :
    ocrServerStep (fun s => s) [] "img" ⟨none, 0, [], "2024-01-01T00:00:00"⟩ =
      ([], GOut.success (mockChineseMenuData "2024-01-01T00:00:00"), false) ∧
    ocrServerStep (fun s => s) [] "img" ⟨none, 0, [], "2024-01-01T00:00:01"⟩ =
      ([], GOut.success (mockChineseMenuData "2024-01-01T00:00:01"), false) ∧
    mockChineseMenuData "2024-01-01T00:00:00" ≠
      mockChineseMenuData "2024-01-01T00:00:01" :=
  ⟨rfl, rfl, fun he => absurd (congrArg GResult.timestamp he) (by decide)⟩

/-- C8 amended: when the first call succeeds through the Google Vision
provider path — the only path that writes the cache — a second call with
byte-identical image input returns the identical cached result and issues no
second provider call; the cache key is the fingerprint of the
(prefix-stripped, still base64-encoded, pre-decoding) image payload. -/
theorem cache_idempotent_vision_path
    (h : String → String) (cache : List (String × GResult)) (image : String)
    (env1 env2 : GEnv) (k t : String)
    (hmiss : cacheFind cache (h (dataStrip image)) = none)
    (hk : env1.apiKey = some k) (hs : env1.visionStatus = 200)
    (hv : visionExtract env1.visionBody = VisionParse.text t) :
    ocrServerStep h cache image env1 =
      ((h (dataStrip image), ⟨true, t, "zh", "google_vision", env1.now⟩) :: cache,
       GOut.success ⟨true, t, "zh", "google_vision", env1.now⟩, true) ∧
    ocrServerStep h
      ((h (dataStrip image), ⟨true, t, "zh", "google_vision", env1.now⟩) :: cache)
      image env2 =
      ((h (dataStrip image), ⟨true, t, "zh", "google_vision", env1.now⟩) :: cache,
       GOut.success ⟨true, t, "zh", "google_vision", env1.now⟩, false) := by
  constructor
  · simp [ocrServerStep, hmiss, hk, hs, hv]
  · simp [ocrServerStep, cacheFind]

/-- Witness for C8's amended theorem: a concrete Vision success followed by
a cache hit. -/
theorem cache_idempotent_vision_path_witness :
    ocrServerStep (fun s => s) [] "img"
      ⟨some "key", 200,
       [("responses", Json.arr [Json.obj [("textAnnotations",
          Json.arr [Json.obj [("description", Json.str "菜单")]])]])], "t1"⟩ =
      ([("img", ⟨true, "菜单", "zh", "google_vision", "t1"⟩)],
       GOut.success ⟨true, "菜单", "zh", "google_vision", "t1"⟩, true) ∧
    ocrServerStep (fun s => s)
      [("img", ⟨true, "菜单", "zh", "google_vision", "t1"⟩)] "img"
      ⟨some "key", 200, [], "t2"⟩ =
      ([("img", ⟨true, "菜单", "zh", "google_vision", "t1"⟩)],
       GOut.success ⟨true, "菜单", "zh", "google_vision", "t1"⟩, false) :=
  cache_idempotent_vision_path (fun s => s) [] "img"
    ⟨some "key", 200,
     [("responses", Json.arr [Json.obj [("textAnnotations",
        Json.arr [Json.obj [("description", Json.str "菜单")]])]])], "t1"⟩
    ⟨some "key", 200, [], "t2"⟩ "key" "菜单" rfl rfl rfl rfl

/-- C9 counterexample: the `/batch-dish-details` endpoint does not enforce
"an array with exactly one enrichment object per input dish".  For one input
dish and a provider that answers `[]`, the successful response body is the
object `{"details": []}` — not an array at the top level, and the wrapped
array has 0 objects for 1 input dish. -/
theorem batch_details_shape_cex :
    batchDishDetailsEndpoint pyJsonLoads [⟨"宫保鸡丁", "Kung Pao Chicken", none⟩]
        ⟨some "key", Except.ok "", true, Except.ok (geminiEnvelope "[]")⟩ =
      BatchDetailsResult.ok (Json.obj [("details", Json.arr [])]) ∧
    ([⟨"宫保鸡丁", "Kung Pao Chicken", none⟩] : List DishReq).length = 1 ∧
    (match Json.obj [("details", Json.arr [])] with
     | Json.arr _ => true
     | _ => false) = false ∧
    pyLen (Json.arr []) = some 0 :=
  ⟨rfl, rfl, rfl, rfl⟩

/-- C9 amended: on success the endpoint returns the provider's parsed JSON
verbatim wrapped as `{"details": result_json}`, with no validation of count
or order; the one-object-per-dish, order-preserving correspondence is only
requested through the prompt, whose dish list does enumerate the input
dishes one line per dish in input order. -/
theorem batch_details_passthrough :
    (∀ (loads : String → Except PyJsonError Json) (ds : List DishReq)
       (env : FastEnv) (j : Json),
      batchCore loads env = Except.ok j →
      batchDishDetailsEndpoint loads ds env =
        BatchDetailsResult.ok (Json.obj [("details", j)])) ∧
    (∀ ds : List DishReq, (dishLines ds).length = ds.length) ∧
    (∀ (ds : List DishReq) (i : Nat),
      (dishLines ds).get? i = (ds.get? i).map (dishLine i)) := by
  refine ⟨?_, ?_, ?_⟩
  · intro loads ds env j h
    simp [batchDishDetailsEndpoint, h]
  · intro ds
    simp [dishLines]
  · intro ds i
    simp only [dishLines, List.get?_map]
    rw [List.get?_enum]
    cases ds.get? i <;> rfl

/-- Witness for C9's amended theorem: one dish, provider answer `[{}]`. -/
theorem batch_details_passthrough_witness :
    batchDishDetailsEndpoint pyJsonLoads [⟨"宫保鸡丁", "Kung Pao Chicken", none⟩]
        ⟨some "key", Except.ok "", true,
         Except.ok (geminiEnvelope "[\x7b\x7d]")⟩ =
      BatchDetailsResult.ok
        (Json.obj [("details", Json.arr [Json.obj []])]) ∧
    (dishLines [⟨"宫保鸡丁", "Kung Pao Chicken", none⟩]).get? 0 =
      some "1. 宫保鸡丁 () - Kung Pao Chicken" :=
  ⟨batch_details_passthrough.1 pyJsonLoads
      [⟨"宫保鸡丁", "Kung Pao Chicken", none⟩]
      ⟨some "key", Except.ok "", true, Except.ok (geminiEnvelope "[\x7b\x7d]")⟩
      (Json.arr [Json.obj []]) rfl,
   by
    rw [batch_details_passthrough.2.2 [⟨"宫保鸡丁", "Kung Pao Chicken", none⟩] 0]
    rfl⟩
